import Mathlib

/-!
Shallow embedding of the candidate pipeline orchestration engine of the
vetterati repository: the workflow state machine
(`services/workflow-service/services/state_machine_service.py`,
`services/workflow-service/services/workflow_service.py`), the interview
scheduler (`services/workflow-service/services/interview_service.py`) and
the notification delivery layer
(`services/notification-service/services/notification_service.py`,
`services/notification-service/main.py`).

Conventions: UUIDs are modelled as `Nat`, timestamps as `Nat` (seconds since
an arbitrary epoch), SQL `Float` columns that only ever hold whole-number
percentages as `Nat`, Python `None`-able values as `Option`, and JSON
dictionaries that the code only passes through as association lists.
-/

namespace Vetterati

/-- The `source` field of a transition-rule dict in
`state_machine_service.py`: either a single state name (a Python `str`) or a
list of state names (a Python `list`), as both occur in
`default_transitions`. -/
inductive PySource where
  | str (s : String)
  | list (l : List String)
deriving DecidableEq, Repr

/-- One entry of `StateMachineService.default_transitions` or of a
template's `transitions` list: a dict with keys `trigger`, `source`,
`dest`. -/
structure TransitionRule where
  trigger : String
  source : PySource
  dest : String
deriving DecidableEq, Repr

/-- Python `current_state == transition['source']`: string equality when the
source field is a string; comparing a `str` to a `list` is `False` in
Python. -/
def pyEqSource (current_state : String) : PySource → Bool
  | .str s => current_state == s
  | .list _ => false

/-- Python `current_state in transition.get('source', [])`: substring
containment when the source field is a string, list membership when it is a
list (Python `in` on a `str` tests substrings). -/
def pyInSource (current_state : String) : PySource → Bool
  | .str s => decide (List.IsInfix current_state.toList s.toList)
  | .list l => l.contains current_state

/-- The condition of the rule-matching loop in
`StateMachineService.transition_state` (lines 83-88). -/
def matchesTransition (t : TransitionRule) (current_state action : String) : Bool :=
  t.trigger == action &&
    (pyEqSource current_state t.source || pyInSource current_state t.source)

/-- The `for transition in transitions` loop of `transition_state`: the
first rule matching the action and current state, if any. -/
def findValidTransition (transitions : List TransitionRule)
    (current_state action : String) : Option TransitionRule :=
  transitions.find? (fun t => matchesTransition t current_state action)

/-- `StateMachineService.default_transitions` (lines 36-55). -/
def default_transitions : List TransitionRule :=
  [⟨"screen", .str "applied", "screening"⟩,
   ⟨"schedule_phone", .str "screening", "phone_interview"⟩,
   ⟨"pass_phone", .str "phone_interview", "technical_interview"⟩,
   ⟨"pass_technical", .str "technical_interview", "final_interview"⟩,
   ⟨"pass_final", .str "final_interview", "reference_check"⟩,
   ⟨"references_clear", .str "reference_check", "offer_extended"⟩,
   ⟨"accept_offer", .str "offer_extended", "offer_accepted"⟩,
   ⟨"onboard", .str "offer_accepted", "hired"⟩,
   ⟨"reject", .list ["screening", "phone_interview", "technical_interview",
                     "final_interview", "reference_check"], "rejected"⟩,
   ⟨"decline_offer", .str "offer_extended", "rejected"⟩,
   ⟨"withdraw", .list ["applied", "screening", "phone_interview",
                       "technical_interview", "final_interview"], "withdrawn"⟩,
   ⟨"reconsider", .str "rejected", "screening"⟩]

/-- The `state_progress` dict of `StateMachineService._calculate_progress`
(lines 223-235); every value in the source is a whole-number float. -/
def state_progress : List (String × Nat) :=
  [("applied", 10), ("screening", 20), ("phone_interview", 35),
   ("technical_interview", 50), ("final_interview", 70),
   ("reference_check", 85), ("offer_extended", 95), ("offer_accepted", 99),
   ("hired", 100), ("rejected", 100), ("withdrawn", 100)]

/-- `StateMachineService._calculate_progress`: `state_progress.get(current_state, 0.0)`. -/
def calculate_progress (current_state : String) : Nat :=
  (state_progress.lookup current_state).getD 0

/-- A workflow template as `transition_state` consumes it: the resolved
`transitions` JSON column.  `transitions = none` models the column being
null/empty or lacking the `'transitions'` key, in which case the service
falls back to `default_transitions`. -/
structure WorkflowTemplate where
  states : List String
  transitions : Option (List TransitionRule)
deriving DecidableEq, Repr

/-- One entry of the `state_history` JSON list of a `CandidateWorkflow` row. -/
structure HistoryEntry where
  state : String
  previous_state : Option String := none
  action : String
  entered_at : Nat
  metadata : List (String × String) := []
  triggered_by : Option Nat := none
deriving DecidableEq, Repr

/-- A `CandidateWorkflow` row (models.py) with the fields the services read
or write; `template` is the resolved ORM relationship.  Column defaults:
`progress_percentage = 0.0`, `status = "active"`, `current_state = "applied"`. -/
structure CandidateWorkflow where
  id : Nat
  candidate_id : Nat
  job_id : Nat
  template : Option WorkflowTemplate := none
  current_state : String
  previous_state : Option String := none
  status : String := "active"
  progress_percentage : Nat := 0
  state_history : List HistoryEntry := []
  completed_at : Option Nat := none
deriving DecidableEq, Repr

/-- Lines 72-77 of `transition_state`: the template's custom transitions if
present, else `default_transitions`. -/
def effective_transitions (w : CandidateWorkflow) : List TransitionRule :=
  match w.template with
  | none => default_transitions
  | some t =>
    match t.transitions with
    | none => default_transitions
    | some ts => ts

/-- The hard-coded completion check of `transition_state` (line 120):
`if new_state in ['hired', 'rejected', 'withdrawn']`. -/
def completion_states : List String := ["hired", "rejected", "withdrawn"]

/-- `StateMachineService.transition_state` (lines 57-137) on an
already-fetched workflow: returns the boolean result of the call and the
workflow row as left by the call.  `(false, w)` is the invalid-transition
path (lines 90-92), which happens before any write. -/
def transition_state (w : CandidateWorkflow) (action : String)
    (metadata : List (String × String)) (triggered_by : Option Nat)
    (now : Nat) : Bool × CandidateWorkflow :=
  let transitions := effective_transitions w
  match findValidTransition transitions w.current_state action with
  | none => (false, w)
  | some t =>
    let current_state := w.current_state
    let new_state := t.dest
    let w := { w with previous_state := some current_state,
                      current_state := new_state }
    let w := { w with state_history := w.state_history ++
      [({ state := new_state, previous_state := some current_state,
          action := action, entered_at := now, metadata := metadata,
          triggered_by := triggered_by } : HistoryEntry)] }
    let w := { w with progress_percentage := calculate_progress new_state }
    let w :=
      if completion_states.contains new_state then
        { w with status := "completed", completed_at := some now }
      else w
    (true, w)

/-- Whether a rule's source set contains a state, reading a string source as
the singleton set it denotes (the spec's notion of an outgoing rule). -/
def sourceSetContains (src : PySource) (s : String) : Bool :=
  match src with
  | .str t => s == t
  | .list l => l.contains s

/-- The spec's glossary notion: a terminal state is a state with no
outgoing transition rule in the given template. -/
def isTerminal (transitions : List TransitionRule) (s : String) : Bool :=
  !(transitions.any (fun r => sourceSetContains r.source s))

/-- The payload of `WorkflowService.create_workflow`
(`CandidateWorkflowCreate` in schemas.py, with its defaults
`current_state = "applied"`, `status = active`); `template` stands for the
template the `template_id` resolves to. -/
structure WorkflowCreate where
  candidate_id : Nat
  job_id : Nat
  template : Option WorkflowTemplate := none
  current_state : String := "applied"
  status : String := "active"
deriving DecidableEq, Repr

/-- A `WorkflowState` row (models.py): the state record opened on each state
entry. -/
structure WorkflowStateRecord where
  workflow_id : Nat
  state_name : String
  state_data : List (String × String) := []
  exited_at : Option Nat := none
deriving DecidableEq, Repr

/-- `WorkflowService.create_workflow` (lines 24-78) over the list of
existing `CandidateWorkflow` rows: the duplicate check selects on
`candidate_id` and `job_id` only (no status filter); on success the new row
starts in the requested `current_state` with the single history entry
tagged `workflow_created`, and the initial `WorkflowState` record is
opened with `state_data = {"initial": True}`. -/
def create_workflow (db : List CandidateWorkflow) (data : WorkflowCreate)
    (new_id now : Nat) : Except String (CandidateWorkflow × WorkflowStateRecord) :=
  if db.any (fun w => w.candidate_id == data.candidate_id &&
                      w.job_id == data.job_id) then
    .error "Workflow already exists for this candidate and job"
  else
    .ok ({ id := new_id,
           candidate_id := data.candidate_id,
           job_id := data.job_id,
           template := data.template,
           current_state := data.current_state,
           status := data.status,
           state_history := [{ state := data.current_state,
                               action := "workflow_created",
                               entered_at := now }] },
         { workflow_id := new_id,
           state_name := data.current_state,
           state_data := [("initial", "True")] })

/-- An `InterviewStep` row with the fields `cancel_interview` touches. -/
structure InterviewStep where
  id : Nat
  status : String := "pending"
  notes : Option String := none
  updated_at : Nat := 0
deriving DecidableEq, Repr

/-- `InterviewService.cancel_interview` (interview_service.py lines
231-255) on the fetched interview: `False` when the interview does not
exist, otherwise it sets `status = "cancelled"` and the cancellation note
and reports `True`; there is no check of the prior status. -/
def cancel_interview (interview : Option InterviewStep) (reason : String)
    (now : Nat) : Bool × Option InterviewStep :=
  match interview with
  | none => (false, none)
  | some i => (true, some { i with status := "cancelled",
                                   notes := some ("Cancelled: " ++ reason),
                                   updated_at := now })

/-- `NotificationStatus` (notification-service models.py). -/
inductive NotificationStatus where
  | pending
  | queued
  | sent
  | failed
  | cancelled
deriving DecidableEq, Repr

/-- A `Notification` row with the fields the delivery layer reads or
writes.  The channel is modelled by its string value (`"email"`, `"sms"`,
`"push"`, `"slack"`, `"webhook"`).  Column defaults: `status = pending`,
`retry_count = 0`, `max_retries = 3`. -/
structure Notification where
  id : Nat
  template_id : Option Nat := none
  recipient_user_id : Option Nat := none
  channel : String
  subject : Option String := none
  body : String
  status : NotificationStatus := .pending
  scheduled_at : Nat
  sent_at : Option Nat := none
  failed_at : Option Nat := none
  failure_reason : Option String := none
  retry_count : Nat := 0
  max_retries : Nat := 3
  external_id : Option String := none
deriving DecidableEq, Repr

/-- A `NotificationPreference` row: the per-channel opt-in flags, with the
column defaults of models.py. -/
structure NotificationPreference where
  email_enabled : Bool := true
  sms_enabled : Bool := false
  push_enabled : Bool := true
  slack_enabled : Bool := false
deriving DecidableEq, Repr

/-- `getattr(preferences, f"{channel}_enabled", True)` in
`process_notification` (main.py line 370): the model has no
`webhook_enabled` column, so the `getattr` default `True` applies there and
for any unknown channel. -/
def channel_enabled (p : NotificationPreference) (channel : String) : Bool :=
  if channel == "email" then p.email_enabled
  else if channel == "sms" then p.sms_enabled
  else if channel == "push" then p.push_enabled
  else if channel == "slack" then p.slack_enabled
  else true

/-- The retry delay of `mark_notification_failed` (line 462):
`min(300, 30 * (2 ** retry_count))`. -/
def retry_delay (retry_count : Nat) : Nat := min 300 (30 * 2 ^ retry_count)

/-- `NotificationService.mark_notification_failed` (lines 443-472) on the
fetched row: the retry count is incremented unconditionally, then the
incremented count decides between rescheduling as `pending` with
exponential backoff and permanent `failed`. -/
def mark_notification_failed (n : Notification) (failure_reason : String)
    (should_retry : Bool) (now : Nat) : Notification :=
  let n := { n with failure_reason := some failure_reason,
                    failed_at := some now,
                    retry_count := n.retry_count + 1 }
  if should_retry && decide (n.retry_count < n.max_retries) then
    { n with status := .pending, scheduled_at := now + retry_delay n.retry_count }
  else
    { n with status := .failed }

/-- `NotificationService.mark_notification_queued` (lines 414-425): flips
any existing notification to `queued`, with no check of its current
status, and reports `True` whenever the row exists. -/
def mark_notification_queued :
    Option Notification → Bool × Option Notification
  | some n => (true, some { n with status := .queued })
  | none => (false, none)

/-- `NotificationService.mark_notification_sent` (lines 427-441). -/
def mark_notification_sent (n : Notification) (external_id : Option String)
    (now : Nat) : Notification :=
  { n with status := .sent, sent_at := some now,
           external_id := match external_id with
             | some e => some e
             | none => n.external_id }

/-- The selection filter of `get_pending_notifications` (lines 404-412):
`status == PENDING and scheduled_at <= now`. -/
def is_pending_due (n : Notification) (now : Nat) : Bool :=
  n.status == .pending && decide (n.scheduled_at ≤ now)

/-- `NotificationService.get_pending_notifications` over the notification
table. -/
def get_pending_notifications (db : List Notification) (now limit : Nat) :
    List Notification :=
  (db.filter (fun n => is_pending_due n now)).take limit

/-- The result dict of `dispatcher.send_notification`:
`{success, external_id} | {success: false, error}`. -/
structure DispatchResult where
  success : Bool
  external_id : Option String := none
  error : Option String := none
deriving DecidableEq, Repr

/-- The state one run of the background task `process_notification`
(main.py lines 351-412) acts on: the notification row it was given, the
recipient's preference row (if any), and a counter of dispatcher sends
performed. -/
structure DeliveryState where
  notification : Option Notification
  preferences : Option NotificationPreference := none
  sends : Nat := 0
deriving DecidableEq, Repr

/-- `process_notification` (main.py lines 351-412): marks the notification
queued (ignoring the result of `mark_notification_queued`), suppresses it
as a permanent failure when the recipient has disabled the channel, and
otherwise performs exactly one dispatcher send, marking the row `sent` or
`failed` from the dispatch result. -/
def process_notification (st : DeliveryState) (result : DispatchResult)
    (now : Nat) : DeliveryState :=
  let st := { st with notification := (mark_notification_queued st.notification).2 }
  match st.notification with
  | none => st
  | some n =>
    let suppressed :=
      match n.recipient_user_id, st.preferences with
      | some _, some p => !(channel_enabled p n.channel)
      | _, _ => false
    if suppressed then
      { st with notification := some (mark_notification_failed n
          ("User has disabled " ++ n.channel ++ " notifications") false now) }
    else
      let st := { st with sends := st.sends + 1 }
      if result.success then
        { st with notification := some (mark_notification_sent n result.external_id now) }
      else
        { st with notification := some (mark_notification_failed n
            (result.error.getD "Unknown error") true now) }

/-- A `NotificationTemplate` row with the fields the service reads. -/
structure NotificationTemplate where
  id : Nat
  name : String
  channel : String
  subject_template : Option String := none
  body_template : String
  is_active : Bool := true
deriving DecidableEq, Repr

/-- `schemas.TemplateRenderResponse`. -/
structure TemplateRenderResponse where
  subject : Option String := none
  body : String
  rendered_successfully : Bool
  errors : Option (List String) := none
deriving DecidableEq, Repr

/-- The Jinja2 engine `Template(tmpl).render(**context)` is external to the
repository; `render_template` and `create_notification` are parameterised
over it as a function from template text and context to a rendered string
or a `TemplateError` message. -/
def RenderEngine : Type := String → List (String × String) → Except String String

/-- `NotificationService.render_template` (lines 95-133): looks the
template up, then renders the subject (when present) and the body inside
one `try`; Python's local variables start as `subject = None`, `body = ""`,
so the first `TemplateError` leaves the remaining parts at those initial
values and yields one error entry. -/
def render_template (render : RenderEngine)
    (templates : List NotificationTemplate) (template_id : Nat)
    (context_data : List (String × String)) : TemplateRenderResponse :=
  match templates.find? (fun t => t.id == template_id) with
  | none => { rendered_successfully := false,
              errors := some ["Template not found"], body := "" }
  | some t =>
    match t.subject_template with
    | some st =>
      match render st context_data with
      | .error e =>
        { subject := none, body := "", rendered_successfully := false,
          errors := some ["Template rendering error: " ++ e] }
      | .ok subj =>
        match render t.body_template context_data with
        | .error e =>
          { subject := some subj, body := "", rendered_successfully := false,
            errors := some ["Template rendering error: " ++ e] }
        | .ok b =>
          { subject := some subj, body := b, rendered_successfully := true }
    | none =>
      match render t.body_template context_data with
      | .error e =>
        { subject := none, body := "", rendered_successfully := false,
          errors := some ["Template rendering error: " ++ e] }
      | .ok b =>
        { subject := none, body := b, rendered_successfully := true }

/-- `schemas.NotificationCreate` with the fields `create_notification`
reads. -/
structure NotificationCreate where
  template_id : Option Nat := none
  recipient_user_id : Option Nat := none
  channel : String
  subject : Option String := none
  body : String
  context_data : List (String × String) := []
  scheduled_at : Option Nat := none
deriving DecidableEq, Repr

/-- `NotificationService.create_notification` (lines 136-171): when a
template id is given, the template is rendered and, only on success, the
rendered subject/body replace the request's; a rendering failure is merely
logged and the notification row is inserted either way, in `pending`
status with `scheduled_at = scheduled_at or now`. -/
def create_notification (render : RenderEngine)
    (templates : List NotificationTemplate) (nc : NotificationCreate)
    (new_id now : Nat) : Notification :=
  let nc :=
    match nc.template_id with
    | some tid =>
      let r := render_template render templates tid nc.context_data
      if r.rendered_successfully then
        { nc with subject := r.subject, body := r.body }
      else nc
    | none => nc
  { id := new_id,
    template_id := nc.template_id,
    recipient_user_id := nc.recipient_user_id,
    channel := nc.channel,
    subject := nc.subject,
    body := nc.body,
    scheduled_at := nc.scheduled_at.getD now }

/-- One recipient dict of a bulk request.  In the source the dict is both
merged into the render context and splatted into the `NotificationCreate`
kwargs; `fields` carries its entries for the context merge and the typed
recipient/body keys are read from it for the constructor. -/
structure BulkRecipient where
  recipient_user_id : Option Nat := none
  recipient_email : Option String := none
  body : Option String := none
  fields : List (String × String) := []
deriving DecidableEq, Repr

/-- `schemas.BulkNotificationCreate`. -/
structure BulkNotificationCreate where
  template_id : Nat
  recipients : List BulkRecipient
  context_data : List (String × String) := []
  scheduled_at : Option Nat := none
deriving DecidableEq, Repr

/-- `schemas.BulkNotificationResponse`. -/
structure BulkNotificationResponse where
  total_requested : Nat
  successfully_queued : Nat
  failed : Nat
  notification_ids : List Nat
  errors : Option (List String) := none
deriving DecidableEq, Repr

/-- The `NotificationCreate(...)` construction inside the bulk loop
(lines 277-284): pydantic validation raises when the required `body` field
is absent from the recipient dict or when no recipient method is given
(`NotificationCreate.__init__`, schemas.py lines 77-88); the `except`
branch of the loop turns such an exception into a per-recipient error. -/
def build_bulk_notification_create (req : BulkNotificationCreate)
    (channel : String) (r : BulkRecipient) : Except String NotificationCreate :=
  match r.body with
  | none => .error "Failed to create notification: field required: body"
  | some b =>
    if r.recipient_user_id.isNone && r.recipient_email.isNone then
      .error "Failed to create notification: At least one recipient method must be provided"
    else
      .ok { template_id := some req.template_id,
            recipient_user_id := r.recipient_user_id,
            channel := channel,
            body := b,
            context_data := req.context_data ++ r.fields,
            scheduled_at := req.scheduled_at }

/-- `NotificationService.create_bulk_notifications` (lines 251-299): when
the template id matches no row the fixed failure response is returned with
the single error `"Template not found"`; otherwise the request fans out
into independent notifications, counting per-recipient successes and
collecting per-recipient errors. -/
def create_bulk_notifications (render : RenderEngine)
    (templates : List NotificationTemplate) (req : BulkNotificationCreate)
    (first_id now : Nat) : BulkNotificationResponse :=
  match templates.find? (fun t => t.id == req.template_id) with
  | none =>
    { total_requested := req.recipients.length,
      successfully_queued := 0,
      failed := req.recipients.length,
      notification_ids := [],
      errors := some ["Template not found"] }
  | some t =>
    let results : List (Except String Notification) :=
      (req.recipients.enum).map (fun p =>
        match build_bulk_notification_create req t.channel p.2 with
        | .error e => .error e
        | .ok nc => .ok (create_notification render templates nc (first_id + p.1) now))
    let ids := results.filterMap (fun r => r.toOption.map (·.id))
    let errs := results.filterMap (fun r =>
      match r with
      | .error e => some e
      | .ok _ => none)
    { total_requested := req.recipients.length,
      successfully_queued := ids.length,
      failed := req.recipients.length - ids.length,
      notification_ids := ids,
      errors := if errs.isEmpty then none else some errs }

/-! Helper lemmas about `transition_state`. -/

/-- When no rule matches, `transition_state` returns `False` with the row
untouched. -/
theorem transition_state_eq_of_none (w : CandidateWorkflow) (action : String)
    (md : List (String × String)) (tb : Option Nat) (now : Nat)
    (hf : findValidTransition (effective_transitions w) w.current_state action = none) :
    transition_state w action md tb now = (false, w) := by
  simp [transition_state, hf]

/-- Field-level description of a successful `transition_state`. -/
theorem transition_state_fields_of_some (w : CandidateWorkflow) (action : String)
    (md : List (String × String)) (tb : Option Nat) (now : Nat) (t : TransitionRule)
    (hf : findValidTransition (effective_transitions w) w.current_state action = some t) :
    (transition_state w action md tb now).1 = true ∧
    (transition_state w action md tb now).2.current_state = t.dest ∧
    (transition_state w action md tb now).2.previous_state = some w.current_state ∧
    (transition_state w action md tb now).2.state_history =
      w.state_history ++
        [{ state := t.dest, previous_state := some w.current_state,
           action := action, entered_at := now, metadata := md,
           triggered_by := tb }] ∧
    (transition_state w action md tb now).2.progress_percentage =
      calculate_progress t.dest ∧
    (transition_state w action md tb now).2.status =
      (if completion_states.contains t.dest then "completed" else w.status) := by
  simp only [transition_state, hf]
  by_cases hc : completion_states.contains t.dest = true
  · simp only [if_pos hc]
    simp
  · simp only [if_neg hc]
    simp

/-! Theorems settling the claims. -/

/-- C1, counterexample: with the built-in default transition rules, taking
a freshly created workflow through `screen` and then `reject` leaves it
with `status = "completed"` although its `current_state` (`"rejected"`) has
an outgoing rule (`reconsider`) and so is not a terminal state of the
template; the claimed invariant `status = completed ↔ current_state
terminal` fails on this concrete run. -/
theorem status_completed_iff_terminal_fails :
    (transition_state
        (transition_state
          { id := 1, candidate_id := 1, job_id := 1,
            current_state := "applied",
            state_history := [{ state := "applied",
                                action := "workflow_created",
                                entered_at := 0 }] }
          "screen" [] none 1).2
        "reject" [] none 2).2.status = "completed" ∧
    (transition_state
        (transition_state
          { id := 1, candidate_id := 1, job_id := 1,
            current_state := "applied",
            state_history := [{ state := "applied",
                                action := "workflow_created",
                                entered_at := 0 }] }
          "screen" [] none 1).2
        "reject" [] none 2).2.current_state = "rejected" ∧
    isTerminal default_transitions "rejected" = false := by decide

/-- C1, amended: after any successful transition, `status = "completed"`
holds iff the new `current_state` is one of the three hard-coded states
`hired`, `rejected`, `withdrawn`, or the status was already `"completed"`
before the call; the template's terminal states play no role. -/
theorem status_completed_iff_hardcoded_state (w : CandidateWorkflow)
    (action : String) (md : List (String × String)) (tb : Option Nat) (now : Nat)
    (h : (transition_state w action md tb now).1 = true) :
    ((transition_state w action md tb now).2.status = "completed" ↔
      (completion_states.contains (transition_state w action md tb now).2.current_state = true
        ∨ w.status = "completed")) := by
  cases hf : findValidTransition (effective_transitions w) w.current_state action with
  | none =>
    rw [transition_state_eq_of_none w action md tb now hf] at h
    exact absurd h (by simp)
  | some t =>
    obtain ⟨-, hcur, -, -, -, hstat⟩ :=
      transition_state_fields_of_some w action md tb now t hf
    rw [hcur, hstat]
    by_cases hc : completion_states.contains t.dest = true
    · rw [if_pos hc]
      exact ⟨fun _ => Or.inl hc, fun _ => rfl⟩
    · rw [if_neg hc]
      refine ⟨fun hs => Or.inr hs, ?_⟩
      rintro (hmem | hs)
      · exact absurd hmem hc
      · exact hs

/-- C1, witness: the amended statement evaluated on a concrete successful
transition (`screen` from `applied` under the default rules). -/
theorem status_completed_iff_hardcoded_state_example :
    ((transition_state
        { id := 1, candidate_id := 1, job_id := 2, current_state := "applied",
          state_history := [] } "screen" [] none 5).2.status = "completed" ↔
      (completion_states.contains
          (transition_state
            { id := 1, candidate_id := 1, job_id := 2, current_state := "applied",
              state_history := [] } "screen" [] none 5).2.current_state = true
        ∨ ({ id := 1, candidate_id := 1, job_id := 2, current_state := "applied",
             state_history := [] } : CandidateWorkflow).status = "completed")) :=
  status_completed_iff_hardcoded_state
    { id := 1, candidate_id := 1, job_id := 2, current_state := "applied",
      state_history := [] } "screen" [] none 5 (by decide)

/-- C2, counterexample: the rule matcher uses Python `in`, which on a
string source tests substring containment.  With the single custom rule
`go : screening → offer` and `current_state = "screen"`, no rule's source
set contains `"screen"`, yet the transition succeeds and mutates the
instance (state changed, history grown) — refuting the claim that such a
trigger is rejected without any write. -/
theorem invalid_trigger_rejected_fails :
    (∀ r ∈ effective_transitions
        { id := 3, candidate_id := 4, job_id := 5,
          template := some { states := ["screen", "screening", "offer"],
                             transitions := some [⟨"go", .str "screening", "offer"⟩] },
          current_state := "screen", state_history := [] },
      ¬(r.trigger = "go" ∧ sourceSetContains r.source "screen" = true)) ∧
    (transition_state
        { id := 3, candidate_id := 4, job_id := 5,
          template := some { states := ["screen", "screening", "offer"],
                             transitions := some [⟨"go", .str "screening", "offer"⟩] },
          current_state := "screen", state_history := [] }
        "go" [] none 7).1 = true ∧
    (transition_state
        { id := 3, candidate_id := 4, job_id := 5,
          template := some { states := ["screen", "screening", "offer"],
                             transitions := some [⟨"go", .str "screening", "offer"⟩] },
          current_state := "screen", state_history := [] }
        "go" [] none 7).2.current_state = "offer" := by decide

/-- C2, amended: whenever the code's own matcher (trigger equality plus
Python equality-or-`in` on the source field) finds no rule, the call
returns the failure result and the instance is returned unchanged — in
particular `current_state`, the length of `state_history` and
`progress_percentage` are identical before and after the call. -/
theorem invalid_transition_no_mutation (w : CandidateWorkflow)
    (action : String) (md : List (String × String)) (tb : Option Nat) (now : Nat)
    (h : findValidTransition (effective_transitions w) w.current_state action = none) :
    (transition_state w action md tb now).1 = false ∧
    (transition_state w action md tb now).2 = w ∧
    (transition_state w action md tb now).2.current_state = w.current_state ∧
    (transition_state w action md tb now).2.state_history.length =
      w.state_history.length ∧
    (transition_state w action md tb now).2.progress_percentage =
      w.progress_percentage := by
  rw [transition_state_eq_of_none w action md tb now h]
  exact ⟨rfl, rfl, rfl, rfl, rfl⟩

/-- C2, witness: the spec's scenario B — applying `accept` from `applied`
under the default rules is rejected and changes nothing. -/
theorem invalid_transition_no_mutation_example :
    (transition_state
        { id := 1, candidate_id := 1, job_id := 2, current_state := "applied",
          state_history := [] } "accept" [] none 5).1 = false ∧
    (transition_state
        { id := 1, candidate_id := 1, job_id := 2, current_state := "applied",
          state_history := [] } "accept" [] none 5).2 =
      { id := 1, candidate_id := 1, job_id := 2, current_state := "applied",
        state_history := [] } ∧
    (transition_state
        { id := 1, candidate_id := 1, job_id := 2, current_state := "applied",
          state_history := [] } "accept" [] none 5).2.current_state =
      ({ id := 1, candidate_id := 1, job_id := 2, current_state := "applied",
         state_history := [] } : CandidateWorkflow).current_state ∧
    (transition_state
        { id := 1, candidate_id := 1, job_id := 2, current_state := "applied",
          state_history := [] } "accept" [] none 5).2.state_history.length =
      ({ id := 1, candidate_id := 1, job_id := 2, current_state := "applied",
         state_history := [] } : CandidateWorkflow).state_history.length ∧
    (transition_state
        { id := 1, candidate_id := 1, job_id := 2, current_state := "applied",
          state_history := [] } "accept" [] none 5).2.progress_percentage =
      ({ id := 1, candidate_id := 1, job_id := 2, current_state := "applied",
         state_history := [] } : CandidateWorkflow).progress_percentage :=
  invalid_transition_no_mutation
    { id := 1, candidate_id := 1, job_id := 2, current_state := "applied",
      state_history := [] } "accept" [] none 5 (by decide)

/-- C3, counterexample: the duplicate check of `create_workflow` filters on
the `(candidate, job)` pair only, with no status condition.  With a single
existing instance for the pair whose status is `"completed"` (so no active
instance exists), creation still fails — refuting the claim that creation
succeeds when only non-active instances exist. -/
theorem create_succeeds_when_no_active_fails :
    (∀ w ∈ [({ id := 1, candidate_id := 7, job_id := 8,
               current_state := "hired", status := "completed",
               progress_percentage := 100 } : CandidateWorkflow)],
       w.status ≠ "active") ∧
    create_workflow
        [{ id := 1, candidate_id := 7, job_id := 8,
           current_state := "hired", status := "completed",
           progress_percentage := 100 }]
        { candidate_id := 7, job_id := 8 } 2 10 =
      .error "Workflow already exists for this candidate and job" :=
  ⟨by decide, rfl⟩

/-- C3, amended: `create_workflow` fails with the duplicate error iff any
instance for the `(candidate, job)` pair exists, regardless of its status;
when none exists it creates the instance in the request's `current_state`
(default `applied`; the template is not consulted for an initial state),
opens its first state record, and appends the single history entry tagged
`workflow_created`. -/
theorem create_workflow_duplicate_any_status (db : List CandidateWorkflow)
    (data : WorkflowCreate) (new_id now : Nat) :
    ((∃ w ∈ db, w.candidate_id = data.candidate_id ∧ w.job_id = data.job_id) →
      create_workflow db data new_id now =
        .error "Workflow already exists for this candidate and job") ∧
    ((∀ w ∈ db, ¬(w.candidate_id = data.candidate_id ∧ w.job_id = data.job_id)) →
      create_workflow db data new_id now =
        .ok ({ id := new_id,
               candidate_id := data.candidate_id,
               job_id := data.job_id,
               template := data.template,
               current_state := data.current_state,
               status := data.status,
               state_history := [{ state := data.current_state,
                                   action := "workflow_created",
                                   entered_at := now }] },
             { workflow_id := new_id,
               state_name := data.current_state,
               state_data := [("initial", "True")] })) := by
  have hcond : (db.any (fun w => w.candidate_id == data.candidate_id &&
        w.job_id == data.job_id) = true) ↔
      ∃ w ∈ db, w.candidate_id = data.candidate_id ∧ w.job_id = data.job_id := by
    simp [List.any_eq_true]
  constructor
  · intro h
    unfold create_workflow
    rw [if_pos (hcond.mpr h)]
  · intro h
    unfold create_workflow
    rw [if_neg]
    intro hc
    obtain ⟨w, hw, h1, h2⟩ := hcond.mp hc
    exact h w hw ⟨h1, h2⟩

/-- C3, witness: creating against an empty table succeeds with the
described row and initial state record. -/
theorem create_workflow_duplicate_any_status_example :
    create_workflow [] ({ candidate_id := 7, job_id := 8 } : WorkflowCreate) 1 0 =
      .ok ({ id := 1, candidate_id := 7, job_id := 8, template := none,
             current_state := "applied", status := "active",
             state_history := [{ state := "applied",
                                 action := "workflow_created",
                                 entered_at := 0 }] },
           { workflow_id := 1, state_name := "applied",
             state_data := [("initial", "True")] }) :=
  (create_workflow_duplicate_any_status []
    ({ candidate_id := 7, job_id := 8 } : WorkflowCreate) 1 0).2 (by simp)

/-- The scenario-A template of the spec: states
`[applied, screening, offer, hired, rejected]` with rules `screen`,
`extend_offer`, `accept`, `reject`. -/
def scenarioA_template : WorkflowTemplate :=
  { states := ["applied", "screening", "offer", "hired", "rejected"],
    transitions := some
      [⟨"screen", .str "applied", "screening"⟩,
       ⟨"extend_offer", .str "screening", "offer"⟩,
       ⟨"accept", .str "offer", "hired"⟩,
       ⟨"reject", .list ["screening", "offer"], "rejected"⟩] }

/-- The instance produced by `create_workflow` for scenario A. -/
def scenarioA_w0 : CandidateWorkflow :=
  match create_workflow []
      { candidate_id := 1, job_id := 2, template := some scenarioA_template } 1 0 with
  | .ok (w, _) => w
  | .error _ =>
    { id := 0, candidate_id := 0, job_id := 0, current_state := "",
      state_history := [] }

/-- Scenario A after applying `screen`. -/
def scenarioA_w1 : CandidateWorkflow := (transition_state scenarioA_w0 "screen" [] none 1).2

/-- Scenario A after applying `extend_offer`. -/
def scenarioA_w2 : CandidateWorkflow := (transition_state scenarioA_w1 "extend_offer" [] none 2).2

/-- Scenario A after applying `accept`. -/
def scenarioA_w3 : CandidateWorkflow := (transition_state scenarioA_w2 "accept" [] none 3).2

/-- C4, counterexample: running scenario A against the code, the freshly
created instance carries the column default `progress_percentage = 0`, not
10, and after `extend_offer` the state `offer` is absent from the
hard-coded `state_progress` map, so progress is 0, not 95. -/
theorem scenarioA_progress_fails :
    scenarioA_w0.current_state = "applied" ∧
    scenarioA_w0.progress_percentage ≠ 10 ∧
    scenarioA_w2.current_state = "offer" ∧
    scenarioA_w2.progress_percentage ≠ 95 := by decide

/-- C4, amended: the actual scenario-A run.  Creation leaves progress at
the column default 0; each transition recomputes progress from the
service's hard-coded `state_progress` map (not a template-supplied map), so
`screen` gives 20, `extend_offer` gives 0 (the template state `offer` is
unknown to the map), and `accept` gives 100 with `status = completed`
(because `hired` is in the hard-coded completion list). -/
theorem scenarioA_actual_run :
    scenarioA_w0.current_state = "applied" ∧
    scenarioA_w0.progress_percentage = 0 ∧
    scenarioA_w0.status = "active" ∧
    scenarioA_w1.current_state = "screening" ∧
    scenarioA_w1.progress_percentage = 20 ∧
    scenarioA_w2.current_state = "offer" ∧
    scenarioA_w2.progress_percentage = 0 ∧
    scenarioA_w3.current_state = "hired" ∧
    scenarioA_w3.progress_percentage = 100 ∧
    scenarioA_w3.status = "completed" ∧
    scenarioA_w1.progress_percentage = calculate_progress "screening" ∧
    scenarioA_w2.progress_percentage = calculate_progress "offer" ∧
    calculate_progress "offer" = 0 := by decide

/-- A concrete notification whose recipient has disabled its channel. -/
def suppressedNotification : Notification :=
  { id := 1, channel := "email", body := "Welcome aboard", scheduled_at := 0,
    recipient_user_id := some 9 }

/-- Preferences disabling the email channel. -/
def suppressedPrefs : NotificationPreference := { email_enabled := false }

/-- The delivery state for the preference-suppression scenario. -/
def suppressedState : DeliveryState :=
  { notification := some suppressedNotification,
    preferences := some suppressedPrefs }

/-- C5, counterexample: processing a notification whose recipient has
disabled the channel marks it failed, but `mark_notification_failed`
increments `retry_count` unconditionally, so the row ends with
`retry_count = 1`, not the claimed 0. -/
theorem preference_suppression_retry_count_zero_fails :
    ((process_notification suppressedState { success := true } 4).notification.map
        (fun x => x.status)) = some .failed ∧
    ((process_notification suppressedState { success := true } 4).notification.map
        (fun x => x.retry_count)) = some 1 ∧
    ((process_notification suppressedState { success := true } 4).notification.map
        (fun x => x.retry_count)) ≠ some 0 := by decide

/-- C5, amended: when the recipient has disabled the notification's
channel, processing marks the row failed immediately with the suppression
failure reason and `retry_count` incremented by exactly one (to 1 for a
fresh notification); no dispatcher send is performed, `scheduled_at` is
untouched (never rescheduled), and the resulting row is never again
selectable by the pending sweep. -/
theorem preference_suppression_terminal (st : DeliveryState) (n : Notification)
    (p : NotificationPreference) (result : DispatchResult) (now : Nat)
    (hn : st.notification = some n) (hu : n.recipient_user_id.isSome = true)
    (hp : st.preferences = some p) (hd : channel_enabled p n.channel = false) :
    ∃ n2, (process_notification st result now).notification = some n2 ∧
      n2.status = .failed ∧
      n2.retry_count = n.retry_count + 1 ∧
      n2.failure_reason = some ("User has disabled " ++ n.channel ++ " notifications") ∧
      n2.scheduled_at = n.scheduled_at ∧
      (process_notification st result now).sends = st.sends ∧
      (∀ t, is_pending_due n2 t = false) := by
  obtain ⟨u, hu2⟩ := Option.isSome_iff_exists.mp hu
  refine ⟨mark_notification_failed { n with status := .queued }
      ("User has disabled " ++ n.channel ++ " notifications") false now,
    ?_, ?_, ?_, ?_, ?_, ?_, ?_⟩
  · simp [process_notification, hn, hp, hu2, hd, mark_notification_queued]
  · simp [mark_notification_failed]
  · simp [mark_notification_failed]
  · simp [mark_notification_failed]
  · simp [mark_notification_failed]
  · simp [process_notification, hn, hp, hu2, hd, mark_notification_queued]
  · intro t
    simp [is_pending_due, mark_notification_failed]

/-- C5, witness: the amended statement evaluated on the concrete
suppression scenario. -/
theorem preference_suppression_terminal_example :
    ∃ n2, (process_notification suppressedState { success := true } 4).notification = some n2 ∧
      n2.status = .failed ∧
      n2.retry_count = suppressedNotification.retry_count + 1 ∧
      n2.failure_reason = some ("User has disabled " ++ suppressedNotification.channel ++ " notifications") ∧
      n2.scheduled_at = suppressedNotification.scheduled_at ∧
      (process_notification suppressedState { success := true } 4).sends = suppressedState.sends ∧
      (∀ t, is_pending_due n2 t = false) :=
  preference_suppression_terminal suppressedState suppressedNotification
    suppressedPrefs { success := true } 4 rfl (by decide) rfl (by decide)

/-- A concrete retryable notification (first failure pending). -/
def retryNotification : Notification :=
  { id := 2, channel := "email", body := "Interview reminder",
    scheduled_at := 40, retry_count := 0, max_retries := 3 }

/-- C6: the computed retry delay `min(300, 30 * 2^n)` is non-decreasing in
the retry count and never exceeds the 300-second cap, and on a retryable
failure handled at a time at or after the previous `scheduled_at` the new
`scheduled_at` strictly increases (it becomes `now + retry_delay` with the
incremented retry count). -/
theorem backoff_monotone_capped :
    (∀ n m : Nat, n ≤ m → retry_delay n ≤ retry_delay m) ∧
    (∀ n : Nat, retry_delay n ≤ 300) ∧
    (∀ (nf : Notification) (reason : String) (now : Nat),
      nf.scheduled_at ≤ now →
      nf.retry_count + 1 < nf.max_retries →
      nf.scheduled_at < (mark_notification_failed nf reason true now).scheduled_at ∧
      (mark_notification_failed nf reason true now).scheduled_at =
        now + retry_delay (nf.retry_count + 1)) := by
  refine ⟨?_, ?_, ?_⟩
  · intro n m h
    unfold retry_delay
    exact min_le_min le_rfl
      (Nat.mul_le_mul_left 30 (Nat.pow_le_pow_right (by norm_num) h))
  · intro n
    exact min_le_left _ _
  · intro nf reason now hsched hretry
    have hpos : 0 < retry_delay (nf.retry_count + 1) := by
      unfold retry_delay
      exact lt_min (by norm_num) (by positivity)
    have heq : (mark_notification_failed nf reason true now).scheduled_at =
        now + retry_delay (nf.retry_count + 1) := by
      simp [mark_notification_failed, hretry]
    rw [heq]
    exact ⟨lt_of_le_of_lt hsched (Nat.lt_add_of_pos_right hpos), rfl⟩

/-- C6, witness: the statement evaluated at concrete retry counts and on a
concrete first retry handled at time 50. -/
theorem backoff_monotone_capped_example :
    retry_delay 1 ≤ retry_delay 2 ∧
    retry_delay 7 ≤ 300 ∧
    (retryNotification.scheduled_at <
       (mark_notification_failed retryNotification "connection reset" true 50).scheduled_at ∧
     (mark_notification_failed retryNotification "connection reset" true 50).scheduled_at =
       50 + retry_delay (retryNotification.retry_count + 1)) :=
  ⟨backoff_monotone_capped.1 1 2 (by decide),
   backoff_monotone_capped.2.1 7,
   backoff_monotone_capped.2.2 retryNotification "connection reset" 50
     (by decide) (by decide)⟩

/-- C8, counterexample: cancelling an interview whose status is already
`completed` is not a no-op — `cancel_interview` reports success and
overwrites the status with `cancelled`. -/
theorem cancel_completed_interview_noop_fails :
    (cancel_interview (some { id := 1, status := "completed" }) "duplicate" 5).1 = true ∧
    ((cancel_interview (some { id := 1, status := "completed" }) "duplicate" 5).2.map
        (fun i => i.status)) = some "cancelled" := by decide

/-- C8, amended: `cancel_interview` succeeds for every existing interview
and unconditionally sets `status = "cancelled"` (recording the reason in
the notes), regardless of the prior status — including `completed`; no
terminal-status check exists. -/
theorem cancel_interview_unconditional (i : InterviewStep) (reason : String)
    (now : Nat) :
    cancel_interview (some i) reason now =
      (true, some { i with status := "cancelled",
                           notes := some ("Cancelled: " ++ reason),
                           updated_at := now }) := rfl

/-- A render engine that fails on every template, modelling a Jinja2
`TemplateError` (e.g. an undefined variable). -/
def failingEngine : RenderEngine := fun _ _ => .error "name is undefined"

/-- A concrete notification template. -/
def welcomeTemplate : NotificationTemplate :=
  { id := 1, name := "welcome", channel := "email",
    subject_template := some "Welcome", body_template := "Hello name" }

/-- A notification request referencing `welcomeTemplate`. -/
def renderRequest : NotificationCreate :=
  { template_id := some 1, channel := "email",
    subject := some "original subject", body := "original body",
    recipient_user_id := some 3 }

/-- A failed render always carries a typed error list. -/
theorem render_template_errors_of_not_success (render : RenderEngine)
    (templates : List NotificationTemplate) (tid : Nat)
    (ctx : List (String × String))
    (h : (render_template render templates tid ctx).rendered_successfully = false) :
    (render_template render templates tid ctx).errors ≠ none := by
  cases hf : templates.find? (fun t => t.id == tid) with
  | none => simp [render_template, hf]
  | some t =>
    cases hst : t.subject_template with
    | none =>
      cases hb : render t.body_template ctx with
      | error e => simp [render_template, hf, hst, hb]
      | ok b => simp [render_template, hf, hst, hb] at h
    | some st =>
      cases hs : render st ctx with
      | error e => simp [render_template, hf, hst, hs]
      | ok subj =>
        cases hb : render t.body_template ctx with
        | error e => simp [render_template, hf, hst, hs, hb]
        | ok b => simp [render_template, hf, hst, hs, hb] at h

/-- When rendering fails, `create_notification` inserts the row built from
the request's own fields. -/
theorem create_notification_of_render_failed (render : RenderEngine)
    (templates : List NotificationTemplate) (nc : NotificationCreate)
    (tid new_id now : Nat) (htid : nc.template_id = some tid)
    (hfail : (render_template render templates tid nc.context_data).rendered_successfully = false) :
    create_notification render templates nc new_id now =
      { id := new_id, template_id := nc.template_id,
        recipient_user_id := nc.recipient_user_id, channel := nc.channel,
        subject := nc.subject, body := nc.body,
        scheduled_at := nc.scheduled_at.getD now } := by
  simp [create_notification, htid, hfail]

/-- C7, counterexample: with an engine that raises a `TemplateError`,
rendering fails, yet `create_notification` still creates the notification
row (in `pending` status, carrying the request's original body and the
failed template's id) — refuting the claim that a rendering failure blocks
creation. -/
theorem rendering_failure_blocks_creation_fails :
    (render_template failingEngine [welcomeTemplate] 1 []).rendered_successfully = false ∧
    (create_notification failingEngine [welcomeTemplate] renderRequest 5 0).status = .pending ∧
    (create_notification failingEngine [welcomeTemplate] renderRequest 5 0).body = "original body" ∧
    (create_notification failingEngine [welcomeTemplate] renderRequest 5 0).template_id = some 1 := by
  decide

/-- C7, amended: a substitution failure yields a typed rendering error (a
non-empty `errors` list with `rendered_successfully = false`) and the
rendered values are never partially applied — on failure the created
notification keeps exactly the request's own subject and body; but
creation itself is not blocked: the row is still inserted, in `pending`
status. -/
theorem rendering_failure_typed_error_no_partial (render : RenderEngine)
    (templates : List NotificationTemplate) (nc : NotificationCreate)
    (tid new_id now : Nat) (htid : nc.template_id = some tid)
    (hfail : (render_template render templates tid nc.context_data).rendered_successfully = false) :
    (render_template render templates tid nc.context_data).errors ≠ none ∧
    (create_notification render templates nc new_id now).subject = nc.subject ∧
    (create_notification render templates nc new_id now).body = nc.body ∧
    (create_notification render templates nc new_id now).status = .pending := by
  have h2 := create_notification_of_render_failed render templates nc tid new_id now htid hfail
  refine ⟨render_template_errors_of_not_success render templates tid nc.context_data hfail,
    ?_, ?_, ?_⟩ <;> rw [h2]

/-- C7, witness: the amended statement evaluated on the concrete failing
engine and request. -/
theorem rendering_failure_typed_error_no_partial_example :
    (render_template failingEngine [welcomeTemplate] 1 renderRequest.context_data).errors ≠ none ∧
    (create_notification failingEngine [welcomeTemplate] renderRequest 5 0).subject = renderRequest.subject ∧
    (create_notification failingEngine [welcomeTemplate] renderRequest 5 0).body = renderRequest.body ∧
    (create_notification failingEngine [welcomeTemplate] renderRequest 5 0).status = .pending :=
  rendering_failure_typed_error_no_partial failingEngine [welcomeTemplate]
    renderRequest 1 5 0 rfl (by decide)

/-- A pending notification as the sweep sees it (no recipient preferences
involved). -/
def sweepNotification : Notification :=
  { id := 3, channel := "email", body := "status update", scheduled_at := 0 }

/-- The delivery state holding `sweepNotification`. -/
def sweepState : DeliveryState := { notification := some sweepNotification }

/-- A successful dispatch result. -/
def okDispatch : DispatchResult := { success := true, external_id := some "prov-1" }

/-- C9, counterexample: `sweepNotification` is selectable while pending, so
two sweep workers can both hand it to `process_notification`; the claim
step (`mark_notification_queued`) checks nothing and its result is ignored,
so both runs dispatch — two sends of the same notification, and the
"claim" still reports success on the already-sent row. -/
theorem claim_check_and_set_fails :
    is_pending_due sweepNotification 0 = true ∧
    (process_notification sweepState okDispatch 1).sends = 1 ∧
    ((process_notification sweepState okDispatch 1).notification.map
        (fun x => x.status)) = some .sent ∧
    (mark_notification_queued (process_notification sweepState okDispatch 1).notification).1 = true ∧
    (process_notification (process_notification sweepState okDispatch 1) okDispatch 2).sends = 2 ∧
    ((process_notification (process_notification sweepState okDispatch 1) okDispatch 2).notification.map
        (fun x => x.status)) = some .sent := by decide

/-- C9, amended: `mark_notification_queued` flips any existing notification
to `queued` unconditionally — there is no check-and-set on the prior
status — and `process_notification` ignores its result, so each worker
that processes the same notification performs its own dispatcher send:
processing twice yields two sends. -/
theorem mark_queued_unconditional_double_send (n : Notification)
    (st : DeliveryState) (res : DispatchResult) (now1 now2 : Nat)
    (hn : st.notification = some n) (hu : n.recipient_user_id = none)
    (hres : res.success = true) :
    mark_notification_queued (some n) = (true, some { n with status := .queued }) ∧
    (process_notification st res now1).sends = st.sends + 1 ∧
    (process_notification (process_notification st res now1) res now2).sends =
      st.sends + 2 := by
  refine ⟨rfl, ?_, ?_⟩
  · cases hp : st.preferences with
    | none => simp [process_notification, hn, hp, hu, hres, mark_notification_queued]
    | some p => simp [process_notification, hn, hp, hu, hres, mark_notification_queued]
  · cases hp : st.preferences with
    | none =>
      simp [process_notification, hn, hp, hu, hres, mark_notification_queued,
        mark_notification_sent]
    | some p =>
      simp [process_notification, hn, hp, hu, hres, mark_notification_queued,
        mark_notification_sent]

/-- C9, witness: the amended statement evaluated on the concrete pending
notification and a successful dispatch. -/
theorem mark_queued_unconditional_double_send_example :
    mark_notification_queued (some sweepNotification) =
      (true, some { sweepNotification with status := .queued }) ∧
    (process_notification sweepState okDispatch 1).sends = sweepState.sends + 1 ∧
    (process_notification (process_notification sweepState okDispatch 1) okDispatch 2).sends =
      sweepState.sends + 2 :=
  mark_queued_unconditional_double_send sweepNotification sweepState okDispatch
    1 2 rfl rfl rfl

/-- A bulk request whose template id matches no stored template. -/
def bulkReq : BulkNotificationCreate :=
  { template_id := 2,
    recipients := [{ recipient_email := some "a", body := some "hi" }, {}] }

/-- C10: when the bulk request's template id matches no stored template,
no notifications are created and the response reports
`total_requested = |recipients|`, `successfully_queued = 0`,
`failed = |recipients|`, an empty id list, and the single error
`"Template not found"`. -/
theorem bulk_unknown_template (render : RenderEngine)
    (templates : List NotificationTemplate) (req : BulkNotificationCreate)
    (first_id now : Nat)
    (h : templates.find? (fun t => t.id == req.template_id) = none) :
    create_bulk_notifications render templates req first_id now =
      { total_requested := req.recipients.length,
        successfully_queued := 0,
        failed := req.recipients.length,
        notification_ids := [],
        errors := some ["Template not found"] } := by
  simp [create_bulk_notifications, h]

/-- C10, witness: the statement evaluated on a concrete two-recipient bulk
request against a template table lacking its template id. -/
theorem bulk_unknown_template_example :
    create_bulk_notifications failingEngine [welcomeTemplate] bulkReq 10 0 =
      { total_requested := 2, successfully_queued := 0, failed := 2,
        notification_ids := [], errors := some ["Template not found"] } := by
  have h := bulk_unknown_template failingEngine [welcomeTemplate] bulkReq 10 0 (by decide)
  rw [h]
  rfl

end Vetterati
